import Mathlib

/-!
Verification of the backup-manager Job Supervisor Core against its source.

Each definition below is a shallow embedding of one Python function or data
structure from the repository (file and symbol named in its doc comment).
Machine integers are modelled as `Nat`; Python dicts whose key sets are fixed
by the code are modelled as structures; fallible code returns `Except` or
`Option`; code driven by subprocesses or the filesystem takes the outcome of
that external interaction as an explicit argument.
-/

namespace PBackup

/-- The `self.progress['verification']` sub-dict initialised in
`engines/rsync_engine.py` / `engines/rclone_engine.py` `__init__`. -/
structure Verification where
  enabled : Bool
  passed : Option Bool
  files_checked : Nat
  mismatches : Nat
  deriving Repr, DecidableEq

/-- The `self.progress['deletion']` sub-dict initialised in the engines. -/
structure Deletion where
  enabled : Bool
  mode : String
  phase : String
  files_deleted : Nat
  bytes_deleted : Nat
  deriving Repr, DecidableEq

/-- The engine progress snapshot dict (`self.progress` in both engines). -/
structure Progress where
  bytes_transferred : Nat
  total_bytes : Nat
  percent : Nat
  speed_bytes : Nat
  eta_seconds : Nat
  status : String
  verification : Verification
  deletion : Deletion
  deriving Repr, DecidableEq

/-- Initial `verification` block: `enabled` iff the mode is not `'fast'`. -/
def initVerification (verification_mode : String) : Verification :=
  { enabled := verification_mode ≠ "fast"
    passed := none
    files_checked := 0
    mismatches := 0 }

/-- Initial `deletion` block: `enabled` mirrors `delete_source_after`. -/
def initDeletion (delete_source_after : Bool) (deletion_mode : String) : Deletion :=
  { enabled := delete_source_after
    mode := deletion_mode
    phase := "none"
    files_deleted := 0
    bytes_deleted := 0 }

/-- Initial engine progress snapshot (both engine `__init__` bodies). -/
def initProgress (verification_mode : String) (delete_source_after : Bool)
    (deletion_mode : String) : Progress :=
  { bytes_transferred := 0
    total_bytes := 0
    percent := 0
    speed_bytes := 0
    eta_seconds := 0
    status := "pending"
    verification := initVerification verification_mode
    deletion := initDeletion delete_source_after deletion_mode }

/-- The optional keys a caller may pass as the `settings` dict to
`Job.__init__` (`models/job.py`); `none` means the key is absent. -/
structure SettingsInput where
  bandwidth_limit : Option Nat
  delete_source_after : Option Bool
  deletion_mode : Option String
  deletion_confirmed : Option Bool
  skip_deletion_this_run : Option Bool
  deriving Repr, DecidableEq

/-- A job settings dict after `Job.__init__` merged the defaults
(`{**default_settings, **(settings or {})}` in `models/job.py`), so the four
deletion keys are always present. -/
structure Settings where
  bandwidth_limit : Option Nat
  delete_source_after : Bool
  deletion_mode : String
  deletion_confirmed : Bool
  skip_deletion_this_run : Bool
  deriving Repr, DecidableEq

/-- The `{**default_settings, **(settings or {})}` merge in `Job.__init__`. -/
def mergeSettings (s : SettingsInput) : Settings :=
  { bandwidth_limit := s.bandwidth_limit
    delete_source_after := s.delete_source_after.getD false
    deletion_mode := s.deletion_mode.getD "verify_then_delete"
    deletion_confirmed := s.deletion_confirmed.getD false
    skip_deletion_this_run := s.skip_deletion_this_run.getD false }

/-- The `settings or {}` with every key absent. -/
def emptySettingsInput : SettingsInput :=
  { bandwidth_limit := none
    delete_source_after := none
    deletion_mode := none
    deletion_confirmed := none
    skip_deletion_this_run := none }

/-- The default `progress` dict built in `Job.__init__` when none is given.
The Python default dict has only the five numeric keys; the `status` and
sub-block fields of this structure hold inert defaults in that case. -/
def defaultJobProgress : Progress :=
  { bytes_transferred := 0
    total_bytes := 0
    percent := 0
    speed_bytes := 0
    eta_seconds := 0
    status := "pending"
    verification := initVerification "fast"
    deletion := initDeletion false "verify_then_delete" }

/-- A `Job` record (`models/job.py`). The `created_at`/`updated_at` timestamps
are wall-clock strings with no bearing on any claim and are omitted. -/
structure Job where
  id : String
  name : String
  source : String
  dest : String
  jtype : String
  status : String
  progress : Progress
  settings : Settings
  version : Nat
  deriving Repr, DecidableEq

/-- The `Job.VALID_TYPES`. -/
def VALID_TYPES : List String := ["rsync", "rclone"]

/-- The `Job.VALID_STATUSES`. -/
def VALID_STATUSES : List String :=
  ["pending", "running", "paused", "completed", "failed"]

/-- Python `not s or not s.strip()`: true exactly when the string is empty or
all whitespace, i.e. when every character is whitespace. -/
def strippedEmpty (s : String) : Bool :=
  s.data.all Char.isWhitespace

/-- The checks of `Job._validate` (`models/job.py`): type and status in their
enums, and name/source/dest non-empty after stripping whitespace. -/
def jobValid (j : Job) : Bool :=
  VALID_TYPES.contains j.jtype &&
  VALID_STATUSES.contains j.status &&
  !(strippedEmpty j.name) &&
  !(strippedEmpty j.source) &&
  !(strippedEmpty j.dest)

/-- The record `Job.__init__` assembles before calling `_validate`. -/
def buildJob (name source dest job_type job_id status : String)
    (progress : Option Progress) (settings : SettingsInput) (version : Nat) :
    Job :=
  { id := job_id
    name := name
    source := source
    dest := dest
    jtype := job_type
    status := status
    progress := progress.getD defaultJobProgress
    settings := mergeSettings settings
    version := version }

/-- The `Job.__init__`: build the record, then `_validate`, which raises
`ValueError` (here: `Except.error`) when any check fails. -/
def mkJob (name source dest job_type job_id status : String)
    (progress : Option Progress) (settings : SettingsInput) (version : Nat) :
    Except String Job :=
  if jobValid (buildJob name source dest job_type job_id status progress settings version) then
    Except.ok (buildJob name source dest job_type job_id status progress settings version)
  else Except.error "Job validation failed"

/-- The serialized form of one record in the jobs file, as read by
`Job.from_dict` (`models/job.py`): required name/source/dest/type plus
`data.get(...)` optionals. A missing `id` makes `Job.__init__` mint a fresh
uuid4; the fresh string is supplied here as `freshId`. -/
structure JobDict where
  name : String
  source : String
  dest : String
  jtype : String
  id : Option String
  status : Option String
  progress : Option Progress
  settings : SettingsInput
  version : Option Nat
  deriving Repr, DecidableEq

/-- The `Job.from_dict` (`models/job.py`). -/
def Job.from_dict (freshId : String) (d : JobDict) : Except String Job :=
  mkJob d.name d.source d.dest d.jtype (d.id.getD freshId)
    (d.status.getD "pending") d.progress d.settings (d.version.getD 0)

/-- The `Job.update_progress` (`models/job.py`): merge the engine progress dict
into `self.progress` and bump `version`. The engines hand over their full
snapshot, so the merge replaces every progress field. -/
def Job.update_progress (j : Job) (p : Progress) : Job :=
  { j with progress := p, version := j.version + 1 }

/-- The `Job.update_status` (`models/job.py`): raises on an invalid status,
otherwise sets it and bumps `version`. -/
def Job.update_status (j : Job) (new_status : String) : Except String Job :=
  if VALID_STATUSES.contains new_status then
    Except.ok { j with status := new_status, version := j.version + 1 }
  else
    Except.error "Invalid status"

/-- The `Job.should_delete_source` (`models/job.py`); after the constructor merge
the three keys are always present, so `settings.get(k, default)` reads the
field. -/
def Job.should_delete_source (j : Job) : Bool :=
  j.settings.delete_source_after &&
  j.settings.deletion_confirmed &&
  !j.settings.skip_deletion_this_run

/-! ## Job Store (`storage/job_storage.py`) -/

/-- The loop body of `JobStorage.update_job`: find the first stored record
with the same id and replace it with the incoming job; `none` when no record
matches (`found = False`). -/
def update_job_list : List Job → Job → Option (List Job)
  | [], _ => none
  | k :: rest, j =>
    if k.id = j.id then some (j :: rest)
    else
      match update_job_list rest j with
      | some rest2 => some (k :: rest2)
      | none => none

/-- The `JobStorage.update_job`: replace the matching record and write the list
back (the write is queued unconditionally — there is no version comparison);
returns `False` and leaves the store unchanged when the id is absent. -/
def update_job (store : List Job) (j : Job) : Bool × List Job :=
  match update_job_list store j with
  | some store2 => (true, store2)
  | none => (false, store)

/-- What parsing the jobs YAML file yields when the read itself succeeds
(`yaml.safe_load` plus the shape checks in `_load_and_validate_yaml`). -/
inductive YamlDoc where
  /-- The `safe_load` returned `None` (empty file). -/
  | nullDoc
  /-- Parsed value is not a mapping (`isinstance(data, dict)` fails). -/
  | nonDict
  /-- A mapping without a `jobs` key. -/
  | dictNoJobs
  /-- A mapping whose `jobs` value is not a list. -/
  | dictJobsNotList
  /-- A mapping with a `jobs` list of records. -/
  | dictJobs (records : List JobDict)
  deriving Repr, DecidableEq

/-- Outcome of opening and parsing one YAML file on disk. -/
inductive FileRead where
  /-- The file does not exist. -/
  | missing
  /-- The `yaml.safe_load` raised `yaml.YAMLError`. -/
  | yamlError
  /-- Some other exception while reading. -/
  | otherError
  /-- Parse succeeded with this document. -/
  | ok (doc : YamlDoc)
  deriving Repr, DecidableEq

/-- The structural-shape validation in `_load_and_validate_yaml` and
`_recover_from_backup`: a non-mapping top level or a non-list `jobs` key
raises `ValueError`. -/
def docShapeInvalid : YamlDoc → Bool
  | .nonDict => true
  | .dictJobsNotList => true
  | _ => false

/-- The `JobStorage._recover_from_backup`. A missing backup raises
`FileNotFoundError` (modelled as `Except.error`); a backup that fails to
parse or fails the shape checks lands in the final handler, which returns
the empty document `{'jobs': []}`. The function emits no `ErrorEvent` —
only `logging` calls — so no event list is produced anywhere in this path. -/
def recover_from_backup : FileRead → Except Unit YamlDoc
  | .missing => Except.error ()
  | .yamlError => Except.ok (.dictJobs [])
  | .otherError => Except.ok (.dictJobs [])
  | .ok doc =>
    if docShapeInvalid doc then Except.ok (.dictJobs []) else Except.ok doc

/-- The `JobStorage._load_and_validate_yaml`: read the main file; on a YAML
error, a shape `ValueError`, or any other exception (including a missing
file) fall back to `_recover_from_backup`. -/
def load_and_validate_yaml (primary backup : FileRead) : Except Unit YamlDoc :=
  match primary with
  | .ok doc =>
    if docShapeInvalid doc then recover_from_backup backup else Except.ok doc
  | _ => recover_from_backup backup

/-- The `JobStorage.load_jobs`: obtain the document (an exception from recovery —
the `FileNotFoundError` for a missing backup — is caught and yields `[]`);
an empty/`jobs`-less document yields `[]`; each record is decoded with
`Job.from_dict` and a record whose decode raises is skipped. `freshIds`
supplies the uuid4 minted for a record with no `id` (indexed by position). -/
def load_jobs (primary backup : FileRead) (freshIds : Nat → String) :
    List Job :=
  match load_and_validate_yaml primary backup with
  | Except.error _ => []
  | Except.ok doc =>
    match doc with
    | .dictJobs records =>
      (records.enum.filterMap fun p =>
        (Job.from_dict (freshIds p.1) p.2).toOption)
    | _ => []

/-! ## Job Supervisor `start_job` (`core/job_manager.py`) -/

/-- The external facts `JobManager.start_job` consults, gathered as one
record: the live-engine check, the stored record, and the results of the
path / pre-start / deletion-safety validators and of `engine.start()`. -/
structure StartEnv where
  /-- The `job_id in self.engines and self.engines[job_id].is_running()`. -/
  engineLiveRunning : Bool
  /-- The `self.storage.get_job(job_id)`. -/
  storedJob : Option Job
  /-- The `job.validate_paths()` verdict. -/
  pathsValid : Bool
  /-- The `validate_job_before_start(...)` verdict. -/
  preStartValid : Bool
  /-- The `validate_deletion_safety(...)` verdict (consulted only when the job
  should delete its source). -/
  deletionSafe : Bool
  /-- The `is_rclone_installed()` (consulted only for rclone jobs). -/
  rcloneInstalled : Bool
  /-- The `engine.start()` result. -/
  engineStartOk : Bool
  /-- The post-start bookkeeping (map insert, status persist) raised no
  exception. -/
  postStartOk : Bool
  deriving Repr, DecidableEq

/-- Result of `start_job`. A success records the `delete_source_after` flag
the engine was constructed with and whether the deletion safety block ran. -/
inductive StartResult where
  | ok (msg : String) (engineDeleteFlag : Bool) (ranDeletionSafety : Bool)
  | err (msg : String)
  deriving Repr, DecidableEq

/-- The tail of `start_job` once an engine of the right type is built:
`engine.start()`, then the book-keeping that on failure tears the engine
down again and surfaces the exception as an error result. -/
def startEngineTail (env : StartEnv) (shouldDel : Bool) (jobName : String) :
    StartResult :=
  if env.engineStartOk then
    if env.postStartOk then
      StartResult.ok ("Job started successfully: " ++ jobName) shouldDel shouldDel
    else
      StartResult.err "Error starting job: post-start failure"
  else
    StartResult.err "Failed to start backup engine"

/-- The `JobManager.start_job`, guard for guard in source order: duplicate live
engine, record lookup, status transition guard, path validation, pre-start
validation, the deletion-safety block (run iff `job.should_delete_source()`),
engine construction per job type (both engine constructors receive
`delete_source_after = job.should_delete_source()`), and `engine.start()`. -/
def start_job (env : StartEnv) : StartResult :=
  if env.engineLiveRunning then StartResult.err "Job is already running"
  else
    match env.storedJob with
    | none => StartResult.err "Job not found"
    | some job =>
      if ¬ (job.status = "pending" ∨ job.status = "paused" ∨ job.status = "failed") then
        if job.status = "running" then StartResult.err "Job is already running"
        else if job.status = "completed" then
          StartResult.err "Cannot start completed job. Create a new job or delete this one."
        else StartResult.err ("Cannot start job with status " ++ job.status)
      else if ¬ env.pathsValid then StartResult.err "Path validation failed"
      else if ¬ env.preStartValid then StartResult.err "Pre-start validation failed"
      else
        let shouldDel := job.should_delete_source
        if shouldDel ∧ ¬ env.deletionSafe then
          StartResult.err "Deletion safety check failed"
        else if job.jtype = "rsync" then
          startEngineTail env shouldDel job.name
        else if job.jtype = "rclone" then
          if ¬ env.rcloneInstalled then
            StartResult.err "Error starting job: rclone not found"
          else startEngineTail env shouldDel job.name
        else StartResult.err ("Unknown job type: " ++ job.jtype)

/-! ## Transfer engines (`engines/rsync_engine.py`, `engines/rclone_engine.py`) -/

/-- The mutable attributes of one engine relevant to exit handling: retry
counters, the running flag, and the progress snapshot, plus the constructor
arguments that steer the deletion pipeline. -/
structure EngineState where
  delete_source_after : Bool
  deletion_mode : String
  verification_mode : String
  max_retries : Nat
  retry_count : Nat
  running : Bool
  progress : Progress
  deriving Repr, DecidableEq

/-- The `RsyncEngine.NETWORK_ERROR_CODES`. -/
def NETWORK_ERROR_CODES : List Int := [10, 12, 30, 35]

/-- The rsync command assembled by `RsyncEngine.start()` (flag order as in
the source). Python `if self.bandwidth_limit:` treats both `None` and `0` as
absent. -/
def rsyncStartCmd (supports_append_verify delete_source_after : Bool)
    (deletion_mode verification_mode : String) (bandwidth_limit : Option Nat)
    (source dest : String) : List String :=
  ["rsync", "-ah", "--partial", "--progress"]
  ++ (if supports_append_verify then ["--append-verify"] else [])
  ++ (if delete_source_after ∧ deletion_mode = "per_file" then
        ["--remove-source-files"] else [])
  ++ (if verification_mode = "checksum" then ["--checksum"] else [])
  ++ (match bandwidth_limit with
      | some b => if b = 0 then [] else ["--bwlimit", toString b ++ "k"]
      | none => [])
  ++ [source, dest]

/-- The rsync command assembled by `RsyncEngine._restart_process()` for a
retry. Transcribed from its own body: unlike `start()`, it has no
`--remove-source-files` block. -/
def rsyncRestartCmd (supports_append_verify : Bool)
    (verification_mode : String) (bandwidth_limit : Option Nat)
    (source dest : String) : List String :=
  ["rsync", "-ah", "--partial", "--progress"]
  ++ (if supports_append_verify then ["--append-verify"] else [])
  ++ (if verification_mode = "checksum" then ["--checksum"] else [])
  ++ (match bandwidth_limit with
      | some b => if b = 0 then [] else ["--bwlimit", toString b ++ "k"]
      | none => [])
  ++ [source, dest]

/-- Operation chosen by `RcloneEngine.start()` and `_restart_process()`:
`move` iff per-file deletion is requested, else `copy`. -/
def rcloneOperation (delete_source_after : Bool) (deletion_mode : String) :
    String :=
  if delete_source_after ∧ deletion_mode = "per_file" then "move" else "copy"

/-- How one run of the verification subprocess ended (`_verify_backup` in
either engine). For rsync, `completed n` carries the number of output lines
starting with a transfer marker (files that differ); for rclone it carries
the `rclone check` return code (0 iff all files match). -/
inductive VerifyRun where
  | completed (n : Nat)
  | timeoutExpired
  | raised
  deriving Repr, DecidableEq

/-- The `RsyncEngine._verify_backup`: passes iff the dry-run reported no
differing files; a `TimeoutExpired` or any other exception returns `False`. -/
def rsync_verify_backup : VerifyRun → Bool
  | .completed n => n = 0
  | .timeoutExpired => false
  | .raised => false

/-- The `RcloneEngine._verify_backup`: passes iff `rclone check` exited 0; a
`TimeoutExpired` or any other exception returns `False`. -/
def rclone_verify_backup : VerifyRun → Bool
  | .completed rc => rc = 0
  | .timeoutExpired => false
  | .raised => false

/-- The `RsyncEngine._is_network_error`: pattern scan over the output tail, only
consulted for the ambiguous exit code 23. -/
def rsync_is_network_error (returncode : Int) (tailHasNetworkPattern : Bool) :
    Bool :=
  if returncode = 23 then tailHasNetworkPattern else false

/-- The full network classification in `RsyncEngine._monitor_output`:
`returncode in NETWORK_ERROR_CODES or self._is_network_error(...)`. -/
def rsyncIsNetworkError (returncode : Int) (tailHasNetworkPattern : Bool) :
    Bool :=
  NETWORK_ERROR_CODES.contains returncode ||
  rsync_is_network_error returncode tailHasNetworkPattern

/-- The outcomes of the external interactions one pass of `_monitor_output`
performs after the child exits: the exit code, the pattern scan over the
captured output tail, the verification run, what `_delete_verified_files`
managed to do (files and bytes actually unlinked, and how many errors it
counted), the `_restart_process()` result, and the value of `self.running`
observed after the backoff sleep (a concurrent `stop()` may have cleared
it). `verifyRunAfter` is the second verification run rclone performs in
`verify_after` mode. -/
structure ExitEnv where
  returncode : Int
  tailHasNetworkPattern : Bool
  verifyRun : VerifyRun
  verifyRunAfter : VerifyRun
  filesRemoved : Nat
  bytesRemoved : Nat
  deleteErrors : Nat
  restartOk : Bool
  runningAfterSleep : Bool
  deriving Repr, DecidableEq

/-- Whether the monitor loop goes round again (`continue` after a restart)
or terminates (`break`, or the `while self.running` condition failing). -/
inductive MonitorStep where
  | exitLoop
  | retryContinue (backoff : Nat)
  deriving Repr, DecidableEq

/-- Result of one child-exit handling pass: the new engine state, the loop
step, the captured-output buffer after the pass, whether
`_delete_verified_files` was invoked, and how many source files were
unlinked during the pass. -/
structure ExitResult where
  state : EngineState
  step : MonitorStep
  buffer : List String
  deletionEntered : Bool
  sourceFilesRemoved : Nat
  deriving Repr, DecidableEq

/-- Set `progress['deletion']['phase']`. -/
def setPhase (p : Progress) (ph : String) : Progress :=
  { p with deletion := { p.deletion with phase := ph } }

/-- The terminal success write in both monitors: status `completed`, percent
100, running flag cleared, loop broken. -/
def finishCompleted (s : EngineState) (buffer : List String)
    (entered : Bool) (removed : Nat) : ExitResult :=
  { state := { s with
      running := false
      progress := { s.progress with status := "completed", percent := 100 } }
    step := .exitLoop
    buffer := buffer
    deletionEntered := entered
    sourceFilesRemoved := removed }

/-- The terminal failure write in both monitors: status `failed`, running
flag cleared, loop broken. -/
def finishFailed (s : EngineState) (buffer : List String) : ExitResult :=
  { state := { s with
      running := false
      progress := { s.progress with status := "failed" } }
    step := .exitLoop
    buffer := buffer
    deletionEntered := false
    sourceFilesRemoved := 0 }

/-- The `_delete_verified_files` as it affects the progress snapshot: each
successful unlink rewrites `files_deleted`/`bytes_deleted`, so after the
loop they hold the totals — unless nothing was unlinked, in which case they
keep their previous values. Returns `errors == 0`. -/
def applyDeletionPhase (s : EngineState) (env : ExitEnv) :
    EngineState × Bool :=
  let s2 :=
    if env.filesRemoved = 0 then s
    else { s with progress := { s.progress with deletion :=
      { s.progress.deletion with
        files_deleted := env.filesRemoved
        bytes_deleted := env.bytesRemoved } } }
  (s2, env.deleteErrors = 0)

/-- The `returncode == 0` branch shared by both monitors (the
verify-then-delete pipeline, the per-file completion write, then the
completion status write). `verify` abstracts over the engine's
`_verify_backup`. Phase writes on the way: `verifying`, then on a pass
`deleting` and (if deletion reported no errors) `completed`; on a verify
fail `failed` and the deletion phase is never entered. -/
def handleSuccessExit (verify : VerifyRun → Bool) (s : EngineState)
    (buffer : List String) (env : ExitEnv) : ExitResult :=
  if s.delete_source_after ∧ s.deletion_mode = "verify_then_delete" then
    let s1 := { s with progress := setPhase s.progress "verifying" }
    if verify env.verifyRun then
      let s2 := { s1 with progress := setPhase s1.progress "deleting" }
      let (s3, delOk) := applyDeletionPhase s2 env
      if delOk then
        finishCompleted { s3 with progress := setPhase s3.progress "completed" }
          buffer true env.filesRemoved
      else
        finishCompleted s3 buffer true env.filesRemoved
    else
      finishCompleted { s1 with progress := setPhase s1.progress "failed" }
        buffer false 0
  else if s.delete_source_after ∧ s.deletion_mode = "per_file" then
    finishCompleted { s with progress := setPhase s.progress "completed" }
      buffer false 0
  else
    finishCompleted s buffer false 0

/-- The transient-network branch shared by both monitors: while
`retry_count < max_retries`, compute `min(2 ** retry_count, 60)`, bump the
counter, set the retrying status detail, sleep, and — if `self.running`
still holds — clear the captured-output buffer and restart; a failed
restart or exhausted retries writes status `failed`. -/
def handleNetworkExit (s : EngineState) (buffer : List String)
    (env : ExitEnv) : ExitResult :=
  if s.retry_count < s.max_retries then
    let backoff := min (2 ^ s.retry_count) 60
    let s1 := { s with
      retry_count := s.retry_count + 1
      progress := { s.progress with status := "running (retrying...)" } }
    if env.runningAfterSleep then
      if env.restartOk then
        { state := s1
          step := .retryContinue backoff
          buffer := []
          deletionEntered := false
          sourceFilesRemoved := 0 }
      else
        finishFailed s1 []
    else
      { state := s1
        step := .exitLoop
        buffer := buffer
        deletionEntered := false
        sourceFilesRemoved := 0 }
  else
    finishFailed s buffer

/-- One child-exit handling pass of `RsyncEngine._monitor_output`. -/
def rsyncHandleExit (s : EngineState) (buffer : List String) (env : ExitEnv) :
    ExitResult :=
  if env.returncode = 0 then
    handleSuccessExit rsync_verify_backup s buffer env
  else if rsyncIsNetworkError env.returncode env.tailHasNetworkPattern then
    handleNetworkExit s buffer env
  else
    finishFailed s buffer

/-- The extra `verify_after` block in `RcloneEngine._monitor_output`,
executed on success when configured and not already covered by a
verify-then-delete run: records the verification verdict in the snapshot. -/
def rcloneVerifyAfter (s : EngineState) (env : ExitEnv) : EngineState :=
  if s.verification_mode = "verify_after" ∧
      ¬ (s.delete_source_after = true ∧ s.deletion_mode = "verify_then_delete") then
    { s with progress := { s.progress with verification :=
      { s.progress.verification with
        passed := some (rclone_verify_backup env.verifyRunAfter) } } }
  else s

/-- One child-exit handling pass of `RcloneEngine._monitor_output`. rclone
classifies an error as network purely by the pattern scan over the stderr
tail; the success path additionally runs the `verify_after` block before
the completion write. -/
def rcloneHandleExit (s : EngineState) (buffer : List String)
    (env : ExitEnv) : ExitResult :=
  if env.returncode = 0 then
    let r := handleSuccessExit rclone_verify_backup s buffer env
    { r with state := rcloneVerifyAfter r.state env }
  else if env.tailHasNetworkPattern then
    handleNetworkExit s buffer env
  else
    finishFailed s buffer

/-- What `stop()` encounters externally: whether `self.process` is set and
whether `terminate()`/`wait(timeout=5)` raises (the drain has its own inner
handler and cannot raise out). -/
structure StopEnv where
  hasProcess : Bool
  terminateOrWaitRaises : Bool
  deriving Repr, DecidableEq

/-- Result of `stop()`: the return value, the engine state afterwards, and
whether the child was force-killed. -/
structure StopResult where
  returned : Bool
  state : EngineState
  killedChild : Bool
  deriving Repr, DecidableEq

/-- The `stop()` (same structure in both engines): an engine whose running flag
is clear returns `False` untouched; otherwise terminate, drain, wait — on an
exception the child is killed and only the running flag is cleared; on the
normal path the running flag is cleared and status is set to `paused`. -/
def engine_stop (s : EngineState) (env : StopEnv) : StopResult :=
  if s.running = false then
    { returned := false, state := s, killedChild := false }
  else if env.hasProcess ∧ env.terminateOrWaitRaises then
    { returned := true
      state := { s with running := false }
      killedChild := true }
  else
    { returned := true
      state := { s with
        running := false
        progress := { s.progress with status := "paused" } }
      killedChild := false }

/-! ## rsync progress parser (`RsyncEngine._parse_progress`)

The regex extraction is abstracted: a `RsyncParsedLine` records, per chunk,
exactly the capture groups the source extracts. The update logic on those
values is transcribed verbatim. -/

/-- The values the four `re.search` calls of `_parse_progress` extract from
one chunk. `checkTok` carries `(remaining, total)` from the two groups of
the `to-chk=`/`to-check=` pattern. `bytesTok` carries the single captured
group of the byte pattern, the comma-stripped byte count — that pattern
requires a `NN%` token right after the count, but captures no group for it,
so the percent digits themselves are not available to the code. `speedTok`
carries the speed already scaled to bytes (value times the KB/MB/GB
multiplier); `etaTok` carries the `H:M:S` triple. -/
structure RsyncParsedLine where
  checkTok : Option (Nat × Nat)
  bytesTok : Option Nat
  speedTok : Option Nat
  etaTok : Option (Nat × Nat × Nat)
  deriving Repr, DecidableEq

/-- The `updates` dict accumulated by `_parse_progress` before the final
locked `self.progress.update(updates)`. -/
structure ParseUpdates where
  percent : Option Nat
  bytes_transferred : Option Nat
  total_bytes : Option Nat
  speed_bytes : Option Nat
  eta_seconds : Option Nat
  deriving Repr, DecidableEq

/-- The update computation of `_parse_progress` on the extracted values.
`percent` is produced only by the `to-chk` branch, as
`int((completed / total) * 100)` — for `remaining ≤ total` (the only shape
rsync emits) this is the floor `(total - remaining) * 100 / total`, which
is how it is rendered here over `Nat`. The reconstructed total
`int(bytes / (percent / 100.0))` is rendered as `bytes * 100 / percent`,
and the commit guard `abs(calc - cur) > cur * 0.1` as
`10 * |calc - cur| > cur`. Both `total = 0` and `percent = 0` are guarded
before any division. -/
def rsync_parse_progress (line : RsyncParsedLine) (progress : Progress) :
    Progress :=
  let pctUpd : Option Nat :=
    match line.checkTok with
    | some (remaining, total) =>
      if total > 0 then some ((total - remaining) * 100 / total) else none
    | none => none
  let bytesUpd : Option Nat := line.bytesTok
  let totalUpd : Option Nat :=
    match bytesUpd, pctUpd with
    | some b, some pct =>
      if pct > 0 then
        let calcTotal := b * 100 / pct
        let cur := progress.total_bytes
        if cur = 0 ∨ 10 * (Int.natAbs ((calcTotal : Int) - (cur : Int))) > cur then
          some calcTotal
        else none
      else none
    | _, _ => none
  let etaUpd : Option Nat :=
    match line.etaTok with
    | some (h, m, s) => some (h * 3600 + m * 60 + s)
    | none => none
  let updates : ParseUpdates :=
    { percent := pctUpd
      bytes_transferred := bytesUpd
      total_bytes := totalUpd
      speed_bytes := line.speedTok
      eta_seconds := etaUpd }
  { progress with
    percent := updates.percent.getD progress.percent
    bytes_transferred := updates.bytes_transferred.getD progress.bytes_transferred
    total_bytes := updates.total_bytes.getD progress.total_bytes
    speed_bytes := updates.speed_bytes.getD progress.speed_bytes
    eta_seconds := updates.eta_seconds.getD progress.eta_seconds }

/-! ## Python reference semantics of `get_progress()`

`get_progress()` returns `self.progress.copy()` — a *shallow* dict copy.
To state what that shares, top-level progress dicts and the nested
verification/deletion dicts live in an explicit heap; dict-valued entries
hold heap addresses, scalar entries hold immutable values. -/

/-- The nested `deletion` dict as a heap object. -/
structure DeletionObj where
  phase : String
  files_deleted : Nat
  bytes_deleted : Nat
  deriving Repr, DecidableEq

/-- The nested `verification` dict as a heap object. -/
structure VerificationObj where
  passed : Option Bool
  files_checked : Nat
  mismatches : Nat
  deriving Repr, DecidableEq

/-- A top-level progress dict: scalar entries by value, nested dicts by
address. -/
structure TopProgressObj where
  percent : Nat
  bytes_transferred : Nat
  status : String
  verificationRef : Nat
  deletionRef : Nat
  deriving Repr, DecidableEq

/-- The object heap; addresses are list indices. -/
structure PyHeap where
  tops : List TopProgressObj
  dels : List DeletionObj
  vers : List VerificationObj
  deriving Repr, DecidableEq

/-- Dereference a top-level progress dict. -/
def PyHeap.top (h : PyHeap) (a : Nat) : TopProgressObj :=
  h.tops.getD a ⟨0, 0, "", 0, 0⟩

/-- The `self.progress.copy()` under the mutex: allocate a fresh top-level dict
holding the same entries — the same scalar values and the *same* nested
dict addresses — and return its address. -/
def get_progress_heap (h : PyHeap) (selfProgress : Nat) : PyHeap × Nat :=
  ({ h with tops := h.tops ++ [h.top selfProgress] }, h.tops.length)

/-- An engine write to a top-level scalar entry, e.g.
`self.progress['status'] = ...`: rebinds the entry of the engine's own
top-level dict. -/
def writeTopStatus (h : PyHeap) (a : Nat) (v : String) : PyHeap :=
  { h with tops := h.tops.set a ({ h.top a with status := v }) }

/-- An engine write through the nested deletion dict, e.g.
`self.progress['deletion']['files_deleted'] = n`
(`_delete_verified_files`): mutates the deletion object the engine's
top-level dict points to. -/
def writeFilesDeleted (h : PyHeap) (a : Nat) (n : Nat) : PyHeap :=
  let d := h.top a
  let old := h.dels.getD d.deletionRef ⟨"", 0, 0⟩
  { h with dels := h.dels.set d.deletionRef { old with files_deleted := n } }

/-- What a holder of dict address `a` observes as
`progress['deletion']['files_deleted']`. -/
def viewFilesDeleted (h : PyHeap) (a : Nat) : Nat :=
  (h.dels.getD (h.top a).deletionRef ⟨"", 0, 0⟩).files_deleted

/-- What a holder of dict address `a` observes as `progress['status']`. -/
def viewStatus (h : PyHeap) (a : Nat) : String :=
  (h.top a).status

/-! ## Theorems -/

/-- The `mkJob` succeeds exactly on records passing `_validate`, and returns that
record. -/
lemma mkJob_ok_iff (name source dest job_type job_id status : String)
    (progress : Option Progress) (settings : SettingsInput) (version : Nat)
    (j : Job) :
    mkJob name source dest job_type job_id status progress settings version =
      Except.ok j ↔
    (jobValid (buildJob name source dest job_type job_id status progress
      settings version) = true ∧
     j = buildJob name source dest job_type job_id status progress settings
      version) := by
  unfold mkJob
  split
  · rename_i h
    constructor
    · intro hok
      exact ⟨h, by cases hok; rfl⟩
    · rintro ⟨-, rfl⟩
      rfl
  · rename_i h
    simp only [Bool.not_eq_true] at h
    constructor
    · intro hok
      cases hok
    · rintro ⟨hv, -⟩
      simp [h] at hv

/-- Decomposition of `jobValid`. -/
lemma jobValid_iff (j : Job) :
    jobValid j = true ↔
    ((j.jtype = "rsync" ∨ j.jtype = "rclone") ∧
     (j.status = "pending" ∨ j.status = "running" ∨ j.status = "paused" ∨
      j.status = "completed" ∨ j.status = "failed") ∧
     strippedEmpty j.name = false ∧ strippedEmpty j.source = false ∧
     strippedEmpty j.dest = false) := by
  simp [jobValid, VALID_TYPES, VALID_STATUSES, List.contains,
    Bool.and_eq_true, and_assoc]

/-- C9: every Job object present in the system — newly constructed or decoded
from storage — has a type in {rsync, rclone}, a status in
{pending, running, paused, completed, failed}, and name/source/dest non-empty
after stripping whitespace; constructing a violating Job errors
(`ValueError`), and `load_jobs` skips violating records instead of returning
them. -/
theorem job_validation_invariant :
    (∀ (name source dest job_type job_id status : String)
       (progress : Option Progress) (settings : SettingsInput) (version : Nat)
       (j : Job),
      mkJob name source dest job_type job_id status progress settings version =
        Except.ok j →
      (j.jtype = "rsync" ∨ j.jtype = "rclone") ∧
      (j.status = "pending" ∨ j.status = "running" ∨ j.status = "paused" ∨
       j.status = "completed" ∨ j.status = "failed") ∧
      strippedEmpty j.name = false ∧ strippedEmpty j.source = false ∧
      strippedEmpty j.dest = false) ∧
    (∀ (name source dest job_type job_id status : String)
       (progress : Option Progress) (settings : SettingsInput) (version : Nat),
      jobValid (buildJob name source dest job_type job_id status progress
        settings version) = false →
      ∃ e, mkJob name source dest job_type job_id status progress settings
        version = Except.error e) ∧
    (∀ (primary backup : FileRead) (freshIds : Nat → String) (j : Job),
      j ∈ load_jobs primary backup freshIds → jobValid j = true) := by
  refine ⟨?_, ?_, ?_⟩
  · intro name source dest job_type job_id status progress settings version j hok
    have := (mkJob_ok_iff _ _ _ _ _ _ _ _ _ _).mp hok
    exact (jobValid_iff j).mp (this.2 ▸ this.1)
  · intro name source dest job_type job_id status progress settings version hv
    refine ⟨"Job validation failed", ?_⟩
    unfold mkJob
    simp [hv]
  · intro primary backup freshIds j hj
    unfold load_jobs at hj
    rcases hload : load_and_validate_yaml primary backup with e | doc
    · simp [hload] at hj
    · rw [hload] at hj
      cases doc with
      | nullDoc => simp at hj
      | nonDict => simp at hj
      | dictNoJobs => simp at hj
      | dictJobsNotList => simp at hj
      | dictJobs records =>
        simp only [List.mem_filterMap] at hj
        rcases hj with ⟨p, -, hp⟩
        rcases hmk : Job.from_dict (freshIds p.1) p.2 with e2 | j2 <;>
          rw [hmk] at hp
        · cases hp
        · cases hp
          have := (mkJob_ok_iff _ _ _ _ _ _ _ _ _ _).mp hmk
          exact this.2 ▸ this.1

/-- A concrete valid job record, for witnesses. -/
def sampleJobOk : Job :=
  buildJob "Docs backup" "/home/u/docs" "/mnt/bk" "rsync" "id-1" "pending"
    none emptySettingsInput 0

/-- Witness for `job_validation_invariant` at a concrete job record. -/
theorem job_validation_invariant_witness :
    (sampleJobOk.jtype = "rsync" ∨ sampleJobOk.jtype = "rclone") ∧
    (sampleJobOk.status = "pending" ∨ sampleJobOk.status = "running" ∨
     sampleJobOk.status = "paused" ∨ sampleJobOk.status = "completed" ∨
     sampleJobOk.status = "failed") ∧
    strippedEmpty sampleJobOk.name = false ∧
    strippedEmpty sampleJobOk.source = false ∧
    strippedEmpty sampleJobOk.dest = false :=
  job_validation_invariant.1 "Docs backup" "/home/u/docs" "/mnt/bk" "rsync"
    "id-1" "pending" none emptySettingsInput 0 sampleJobOk
    (by unfold mkJob
        split
        · rfl
        · rename_i h
          exact absurd (by decide) h)

/-- C10: `stop()` on a non-running engine returns `False` and changes
nothing; on a running engine it returns `True` even when terminate/wait
raises — in the exception path the child is force-killed and the running
flag cleared but the status is not set to `paused`; only the normal path
sets status `paused`. -/
theorem engine_stop_semantics :
    (∀ (s : EngineState) (env : StopEnv), s.running = false →
      engine_stop s env = ⟨false, s, false⟩) ∧
    (∀ (s : EngineState) (env : StopEnv), s.running = true →
      (engine_stop s env).returned = true) ∧
    (∀ (s : EngineState) (env : StopEnv), s.running = true →
      env.hasProcess = true → env.terminateOrWaitRaises = true →
      engine_stop s env =
        ⟨true, { s with running := false }, true⟩) ∧
    (∀ (s : EngineState) (env : StopEnv), s.running = true →
      ¬ (env.hasProcess = true ∧ env.terminateOrWaitRaises = true) →
      engine_stop s env =
        ⟨true,
         { s with running := false,
                  progress := { s.progress with status := "paused" } },
         false⟩) := by
  refine ⟨?_, ?_, ?_, ?_⟩
  · intro s env hs
    simp [engine_stop, hs]
  · intro s env hs
    unfold engine_stop
    split
    · rename_i h
      rw [hs] at h
      cases h
    · split <;> rfl
  · intro s env hs hp hr
    simp [engine_stop, hs, hp, hr]
  · intro s env hs hne
    simp only [engine_stop, hs]
    rw [if_neg (by simp), if_neg hne]

/-- Witness for `engine_stop_semantics` at concrete engine states. -/
theorem engine_stop_semantics_witness :
    engine_stop
      { delete_source_after := false, deletion_mode := "verify_then_delete",
        verification_mode := "fast", max_retries := 10, retry_count := 0,
        running := false,
        progress := initProgress "fast" false "verify_then_delete" }
      { hasProcess := true, terminateOrWaitRaises := false } =
      ⟨false,
       { delete_source_after := false, deletion_mode := "verify_then_delete",
         verification_mode := "fast", max_retries := 10, retry_count := 0,
         running := false,
         progress := initProgress "fast" false "verify_then_delete" },
       false⟩ :=
  engine_stop_semantics.1 _ _ rfl

/-- C5: `start_job` succeeds only from stored status pending/paused/failed
with no live running engine for the id; a live running engine or a stored
status of running is rejected as a duplicate, and completed is rejected
with the re-run message. -/
theorem start_job_status_guard :
    (∀ (env : StartEnv) (m : String) (f r : Bool),
      start_job env = StartResult.ok m f r →
      env.engineLiveRunning = false ∧
      ∃ j, env.storedJob = some j ∧
        (j.status = "pending" ∨ j.status = "paused" ∨ j.status = "failed")) ∧
    (∀ env : StartEnv, env.engineLiveRunning = true →
      start_job env = StartResult.err "Job is already running") ∧
    (∀ (env : StartEnv) (j : Job), env.engineLiveRunning = false →
      env.storedJob = some j → j.status = "running" →
      start_job env = StartResult.err "Job is already running") ∧
    (∀ (env : StartEnv) (j : Job), env.engineLiveRunning = false →
      env.storedJob = some j → j.status = "completed" →
      start_job env =
        StartResult.err
          "Cannot start completed job. Create a new job or delete this one.") := by
  refine ⟨?_, ?_, ?_, ?_⟩
  · intro env m f r h
    unfold start_job at h
    split at h
    · cases h
    · rename_i hlive
      refine ⟨by simpa using hlive, ?_⟩
      rcases henv : env.storedJob with - | j <;> rw [henv] at h
      · cases h
      · dsimp only at h
        refine ⟨j, rfl, ?_⟩
        by_cases hst : j.status = "pending" ∨ j.status = "paused" ∨ j.status = "failed"
        · exact hst
        · rw [if_pos (by simpa using hst)] at h
          split at h <;> try cases h
          split at h <;> cases h
  · intro env hlive
    unfold start_job
    rw [if_pos hlive]
  · intro env j hlive hjob hst
    unfold start_job
    rw [if_neg (by simp [hlive]), hjob]
    dsimp only
    rw [if_pos (by simp [hst]), if_pos hst]
  · intro env j hlive hjob hst
    unfold start_job
    rw [if_neg (by simp [hlive]), hjob]
    dsimp only
    rw [if_pos (by simp [hst]), if_neg (by simp [hst]), if_pos hst]

/-- An all-green start environment holding `sampleJobOk`, for witnesses. -/
def sampleStartEnv : StartEnv :=
  { engineLiveRunning := false
    storedJob := some sampleJobOk
    pathsValid := true
    preStartValid := true
    deletionSafe := true
    rcloneInstalled := true
    engineStartOk := true
    postStartOk := true }

/-- Witness for `start_job_status_guard`: a concrete environment whose start
succeeds. -/
theorem start_job_status_guard_witness :
    sampleStartEnv.engineLiveRunning = false ∧
    ∃ j, sampleStartEnv.storedJob = some j ∧
      (j.status = "pending" ∨ j.status = "paused" ∨ j.status = "failed") :=
  start_job_status_guard.1 sampleStartEnv
    "Job started successfully: Docs backup" false false (by decide)

/-- C2: the effective deletion flag is the conjunction
`delete_source_after ∧ deletion_confirmed ∧ ¬skip_deletion_this_run`; the
supervisor runs the deletion safety checks and passes
`delete_source_after = should_delete_source()` to the engine exactly per
that flag (and never consults the safety verdict otherwise); and an engine
constructed with the flag off produces no deletion side effect: the
deletion pipeline is never entered, no file is unlinked, the deletion block
is untouched, rsync gets no `--remove-source-files` (its start command
equals the flagless restart command), and rclone uses `copy`. -/
theorem should_delete_gate_controls_deletion :
    (∀ j : Job, j.should_delete_source = true ↔
      (j.settings.delete_source_after = true ∧
       j.settings.deletion_confirmed = true ∧
       j.settings.skip_deletion_this_run = false)) ∧
    (∀ j : Job, j.settings.delete_source_after = true →
      j.settings.deletion_confirmed = false → j.should_delete_source = false) ∧
    (∀ (env : StartEnv) (j : Job) (m : String) (f r : Bool),
      env.storedJob = some j → start_job env = StartResult.ok m f r →
      f = j.should_delete_source ∧ r = j.should_delete_source) ∧
    (∀ (env : StartEnv) (j : Job), env.storedJob = some j →
      j.should_delete_source = false → ∀ b₁ b₂ : Bool,
      start_job { env with deletionSafe := b₁ } =
        start_job { env with deletionSafe := b₂ }) ∧
    (∀ (s : EngineState) (buf : List String) (env : ExitEnv),
      s.delete_source_after = false →
      (rsyncHandleExit s buf env).deletionEntered = false ∧
      (rsyncHandleExit s buf env).sourceFilesRemoved = 0 ∧
      (rsyncHandleExit s buf env).state.progress.deletion =
        s.progress.deletion ∧
      (rcloneHandleExit s buf env).deletionEntered = false ∧
      (rcloneHandleExit s buf env).sourceFilesRemoved = 0 ∧
      (rcloneHandleExit s buf env).state.progress.deletion =
        s.progress.deletion) ∧
    (∀ (sv : Bool) (dm vm : String) (bl : Option Nat) (src dst : String),
      rsyncStartCmd sv false dm vm bl src dst =
        rsyncRestartCmd sv vm bl src dst) ∧
    (∀ dm : String, rcloneOperation false dm = "copy") := by
  refine ⟨?_, ?_, ?_, ?_, ?_, ?_, ?_⟩
  · intro j
    simp [Job.should_delete_source, Bool.and_eq_true, and_assoc]
  · intro j h1 h2
    simp [Job.should_delete_source, h1, h2]
  · intro env j m f r hjob h
    unfold start_job at h
    split at h
    · cases h
    · rw [hjob] at h
      dsimp only at h
      split at h
      · split at h <;> try cases h
        split at h <;> cases h
      · split at h <;> try cases h
        split at h <;> try cases h
        split at h
        · cases h
        · split at h
          · unfold startEngineTail at h
            split at h
            · split at h
              · cases h
                exact ⟨rfl, rfl⟩
              · cases h
            · cases h
          · split at h
            · split at h
              · cases h
              · unfold startEngineTail at h
                split at h
                · split at h
                  · cases h
                    exact ⟨rfl, rfl⟩
                  · cases h
                · cases h
            · cases h
  · intro env j hjob hdel b₁ b₂
    unfold start_job
    simp only [hjob]
    simp [hdel, startEngineTail]
  · intro s buf env hdel
    have hsucc : ∀ vb, (handleSuccessExit vb s buf env).deletionEntered = false ∧
        (handleSuccessExit vb s buf env).sourceFilesRemoved = 0 ∧
        (handleSuccessExit vb s buf env).state.progress.deletion =
          s.progress.deletion := by
      intro vb
      unfold handleSuccessExit
      rw [if_neg (by simp [hdel]), if_neg (by simp [hdel])]
      simp [finishCompleted]
    have hnet : (handleNetworkExit s buf env).deletionEntered = false ∧
        (handleNetworkExit s buf env).sourceFilesRemoved = 0 ∧
        (handleNetworkExit s buf env).state.progress.deletion =
          s.progress.deletion := by
      unfold handleNetworkExit
      split
      · dsimp only
        split
        · split <;> simp [finishFailed]
        · simp
      · simp [finishFailed]
    have hva : ∀ s2 : EngineState, (rcloneVerifyAfter s2 env).progress.deletion =
        s2.progress.deletion := by
      intro s2
      unfold rcloneVerifyAfter
      split <;> rfl
    have hrsync : (rsyncHandleExit s buf env).deletionEntered = false ∧
        (rsyncHandleExit s buf env).sourceFilesRemoved = 0 ∧
        (rsyncHandleExit s buf env).state.progress.deletion =
          s.progress.deletion := by
      unfold rsyncHandleExit
      split
      · exact hsucc _
      · split
        · exact hnet
        · simp [finishFailed]
    have hrclone : (rcloneHandleExit s buf env).deletionEntered = false ∧
        (rcloneHandleExit s buf env).sourceFilesRemoved = 0 ∧
        (rcloneHandleExit s buf env).state.progress.deletion =
          s.progress.deletion := by
      unfold rcloneHandleExit
      split
      · dsimp only
        refine ⟨(hsucc _).1, (hsucc _).2.1, ?_⟩
        rw [hva]
        exact (hsucc _).2.2
      · split
        · exact hnet
        · simp [finishFailed]
    exact ⟨hrsync.1, hrsync.2.1, hrsync.2.2,
      hrclone.1, hrclone.2.1, hrclone.2.2⟩
  · intro sv dm vm bl src dst
    unfold rsyncStartCmd rsyncRestartCmd
    simp
  · intro dm
    unfold rcloneOperation
    simp

/-- Witness for `should_delete_gate_controls_deletion` at a concrete job
with `delete_source_after = true` but `deletion_confirmed = false`. -/
theorem should_delete_gate_witness :
    (buildJob "B" "/a" "/b" "rsync" "id-2" "pending" none
      { emptySettingsInput with delete_source_after := some true } 0
      ).should_delete_source = false :=
  should_delete_gate_controls_deletion.2.1 _ (by decide) (by decide)

/-- The `verify_after` block touches only the verification sub-dict. -/
lemma rcloneVerifyAfter_deletion (s : EngineState) (env : ExitEnv) :
    (rcloneVerifyAfter s env).progress.deletion = s.progress.deletion := by
  unfold rcloneVerifyAfter
  split <;> rfl

/-- The `verify_after` block does not touch the status field. -/
lemma rcloneVerifyAfter_status (s : EngineState) (env : ExitEnv) :
    (rcloneVerifyAfter s env).progress.status = s.progress.status := by
  unfold rcloneVerifyAfter
  split <;> rfl

/-- The `_delete_verified_files` is invoked in the success path only when the
job is verify-then-delete and the verification passed. -/
lemma handleSuccessExit_entered (vb : VerifyRun → Bool) (s : EngineState)
    (buf : List String) (env : ExitEnv) :
    (handleSuccessExit vb s buf env).deletionEntered = true →
    s.delete_source_after = true ∧ s.deletion_mode = "verify_then_delete" ∧
      vb env.verifyRun = true := by
  unfold handleSuccessExit
  split
  · rename_i hc
    split
    · rename_i hv
      dsimp only [applyDeletionPhase]
      split <;> exact fun _ => ⟨hc.1, hc.2, hv⟩
    · simp [finishCompleted]
  · split
    · simp [finishCompleted]
    · simp [finishCompleted]

/-- When the deletion phase is not entered, the success path leaves
`files_deleted` unchanged. -/
lemma handleSuccessExit_not_entered_files (vb : VerifyRun → Bool)
    (s : EngineState) (buf : List String) (env : ExitEnv) :
    (handleSuccessExit vb s buf env).deletionEntered = false →
    (handleSuccessExit vb s buf env).state.progress.deletion.files_deleted =
      s.progress.deletion.files_deleted := by
  unfold handleSuccessExit
  split
  · split
    · dsimp only [applyDeletionPhase]
      split <;> simp [finishCompleted]
    · simp [finishCompleted, setPhase]
  · split
    · simp [finishCompleted, setPhase]
    · simp [finishCompleted]

/-- The retry branch never enters the deletion phase. -/
lemma handleNetworkExit_entered (s : EngineState) (buf : List String)
    (env : ExitEnv) : (handleNetworkExit s buf env).deletionEntered = false := by
  unfold handleNetworkExit
  split
  · dsimp only
    split
    · split <;> simp [finishFailed]
    · simp
  · simp [finishFailed]

/-- The retry branch leaves `files_deleted` unchanged. -/
lemma handleNetworkExit_files (s : EngineState) (buf : List String)
    (env : ExitEnv) :
    (handleNetworkExit s buf env).state.progress.deletion.files_deleted =
      s.progress.deletion.files_deleted := by
  unfold handleNetworkExit
  split
  · dsimp only
    split
    · split <;> simp [finishFailed]
    · simp
  · simp [finishFailed]

/-- C1: in VerifyThenDelete mode, a run whose verification does not pass
(mismatches, timeout, or exception — all classified failed) never enters
the delete phase: no source file is removed, `deletion.phase` becomes
`failed`, the transfer status is still `completed`, and `files_deleted` is
unchanged; conversely the delete phase is entered only on exit 0 with a
passed verification, and `files_deleted` can change only when the delete
phase was entered. Both engines. -/
theorem verify_fail_never_deletes :
    (∀ (s : EngineState) (buf : List String) (env : ExitEnv),
      s.delete_source_after = true → s.deletion_mode = "verify_then_delete" →
      env.returncode = 0 → rsync_verify_backup env.verifyRun = false →
      (rsyncHandleExit s buf env).deletionEntered = false ∧
      (rsyncHandleExit s buf env).sourceFilesRemoved = 0 ∧
      (rsyncHandleExit s buf env).state.progress.deletion.phase = "failed" ∧
      (rsyncHandleExit s buf env).state.progress.status = "completed" ∧
      (rsyncHandleExit s buf env).state.progress.deletion.files_deleted =
        s.progress.deletion.files_deleted) ∧
    (∀ (s : EngineState) (buf : List String) (env : ExitEnv),
      s.delete_source_after = true → s.deletion_mode = "verify_then_delete" →
      env.returncode = 0 → rclone_verify_backup env.verifyRun = false →
      (rcloneHandleExit s buf env).deletionEntered = false ∧
      (rcloneHandleExit s buf env).sourceFilesRemoved = 0 ∧
      (rcloneHandleExit s buf env).state.progress.deletion.phase = "failed" ∧
      (rcloneHandleExit s buf env).state.progress.status = "completed" ∧
      (rcloneHandleExit s buf env).state.progress.deletion.files_deleted =
        s.progress.deletion.files_deleted) ∧
    (∀ n : Nat, n ≠ 0 → rsync_verify_backup (VerifyRun.completed n) = false) ∧
    rsync_verify_backup VerifyRun.timeoutExpired = false ∧
    rsync_verify_backup VerifyRun.raised = false ∧
    (∀ rc : Nat, rc ≠ 0 → rclone_verify_backup (VerifyRun.completed rc) = false) ∧
    rclone_verify_backup VerifyRun.timeoutExpired = false ∧
    rclone_verify_backup VerifyRun.raised = false ∧
    (∀ (s : EngineState) (buf : List String) (env : ExitEnv),
      (rsyncHandleExit s buf env).deletionEntered = true →
      env.returncode = 0 ∧ rsync_verify_backup env.verifyRun = true) ∧
    (∀ (s : EngineState) (buf : List String) (env : ExitEnv),
      (rcloneHandleExit s buf env).deletionEntered = true →
      env.returncode = 0 ∧ rclone_verify_backup env.verifyRun = true) ∧
    (∀ (s : EngineState) (buf : List String) (env : ExitEnv),
      (rsyncHandleExit s buf env).deletionEntered = false →
      (rsyncHandleExit s buf env).state.progress.deletion.files_deleted =
        s.progress.deletion.files_deleted) ∧
    (∀ (s : EngineState) (buf : List String) (env : ExitEnv),
      (rcloneHandleExit s buf env).deletionEntered = false →
      (rcloneHandleExit s buf env).state.progress.deletion.files_deleted =
        s.progress.deletion.files_deleted) := by
  refine ⟨?_, ?_, ?_, rfl, rfl, ?_, rfl, rfl, ?_, ?_, ?_, ?_⟩
  · intro s buf env hdel hmode hrc hv
    unfold rsyncHandleExit
    rw [if_pos hrc]
    unfold handleSuccessExit
    rw [if_pos ⟨hdel, hmode⟩, if_neg (by simp [hv])]
    simp [finishCompleted, setPhase]
  · intro s buf env hdel hmode hrc hv
    unfold rcloneHandleExit
    rw [if_pos hrc]
    unfold handleSuccessExit
    rw [if_pos ⟨hdel, hmode⟩, if_neg (by simp [hv])]
    dsimp only
    rw [rcloneVerifyAfter_deletion, rcloneVerifyAfter_status]
    simp [finishCompleted, setPhase]
  · intro n hn
    simp [rsync_verify_backup, hn]
  · intro rc hrc
    simp [rclone_verify_backup, hrc]
  · intro s buf env h
    unfold rsyncHandleExit at h
    split at h
    · rename_i h0
      exact ⟨h0, (handleSuccessExit_entered _ _ _ _ h).2.2⟩
    · split at h
      · exact absurd h (by simp [handleNetworkExit_entered])
      · exact absurd h (by simp [finishFailed])
  · intro s buf env h
    unfold rcloneHandleExit at h
    split at h
    · rename_i h0
      dsimp only at h
      exact ⟨h0, (handleSuccessExit_entered _ _ _ _ h).2.2⟩
    · split at h
      · exact absurd h (by simp [handleNetworkExit_entered])
      · exact absurd h (by simp [finishFailed])
  · intro s buf env h
    unfold rsyncHandleExit at h ⊢
    split at h
    · rename_i h0
      rw [if_pos h0]
      exact handleSuccessExit_not_entered_files _ _ _ _ h
    · split at h
      · rename_i h0 hnet
        rw [if_neg h0, if_pos hnet]
        exact handleNetworkExit_files _ _ _
      · rename_i h0 hnet
        rw [if_neg h0, if_neg hnet]
        simp [finishFailed]
  · intro s buf env h
    unfold rcloneHandleExit at h ⊢
    split at h
    · rename_i h0
      rw [if_pos h0]
      dsimp only at h ⊢
      rw [rcloneVerifyAfter_deletion]
      exact handleSuccessExit_not_entered_files _ _ _ _ h
    · split at h
      · rename_i h0 hnet
        rw [if_neg h0, if_pos hnet]
        exact handleNetworkExit_files _ _ _
      · rename_i h0 hnet
        rw [if_neg h0, if_neg hnet]
        simp [finishFailed]

/-- A verify-then-delete engine state, for witnesses. -/
def engineVTD : EngineState :=
  { delete_source_after := true
    deletion_mode := "verify_then_delete"
    verification_mode := "fast"
    max_retries := 10
    retry_count := 0
    running := true
    progress := initProgress "fast" true "verify_then_delete" }

/-- An exit-0 environment whose verification reports three mismatches. -/
def exitEnvVerifyFail : ExitEnv :=
  { returncode := 0
    tailHasNetworkPattern := false
    verifyRun := VerifyRun.completed 3
    verifyRunAfter := VerifyRun.completed 0
    filesRemoved := 0
    bytesRemoved := 0
    deleteErrors := 0
    restartOk := true
    runningAfterSleep := true }

/-- Witness for `verify_fail_never_deletes` at a concrete failing
verification. -/
theorem verify_fail_never_deletes_witness :
    (rsyncHandleExit engineVTD [] exitEnvVerifyFail).deletionEntered = false ∧
    (rsyncHandleExit engineVTD [] exitEnvVerifyFail).sourceFilesRemoved = 0 ∧
    (rsyncHandleExit engineVTD [] exitEnvVerifyFail
      ).state.progress.deletion.phase = "failed" ∧
    (rsyncHandleExit engineVTD [] exitEnvVerifyFail).state.progress.status =
      "completed" ∧
    (rsyncHandleExit engineVTD [] exitEnvVerifyFail
      ).state.progress.deletion.files_deleted =
      engineVTD.progress.deletion.files_deleted :=
  verify_fail_never_deletes.1 engineVTD [] exitEnvVerifyFail rfl rfl rfl
    (by decide)

/-- A stored job record at a given version, for the store theorems. -/
def storedJobV (v : Nat) : Job :=
  { id := "job-a"
    name := "A"
    source := "/s"
    dest := "/d"
    jtype := "rsync"
    status := "running"
    progress := defaultJobProgress
    settings := mergeSettings emptySettingsInput
    version := v }

/-- C3 counterexample: `JobStorage.update_job` performs no version
comparison — an update carrying version 3 against a stored version 5 is
committed (the stored sequence becomes 5 then 3), not ignored. -/
theorem update_job_commits_version_reduction :
    (storedJobV 3).version < (storedJobV 5).version ∧
    update_job [storedJobV 5] (storedJobV 3) = (true, [storedJobV 3]) := by
  exact ⟨by decide, by decide⟩

/-- A matching id in the store makes `update_job` replace that record. -/
lemma update_job_list_found (j : Job) :
    ∀ (store : List Job) (k : Job), k ∈ store → k.id = j.id →
    ∃ store2, update_job_list store j = some store2 ∧ j ∈ store2 := by
  intro store
  induction store with
  | nil => intro k hk; cases hk
  | cons a rest ih =>
    intro k hk hid
    by_cases ha : a.id = j.id
    · exact ⟨j :: rest, by simp [update_job_list, ha], by simp⟩
    · rcases List.mem_cons.mp hk with rfl | hk2
      · exact absurd hid ha
      · rcases ih k hk2 hid with ⟨s2, hs2, hj⟩
        exact ⟨a :: s2, by simp [update_job_list, ha, hs2], by simp [hj]⟩

/-- C3 amended: each in-memory mutation (`update_progress`,
`update_status`) increments `version` by exactly 1, but the store commits
an update for an existing id unconditionally (last write wins): a version
reduction is not rejected at write time. -/
theorem version_monotone_last_write_wins (store : List Job) (j k : Job)
    (hk : k ∈ store) (hid : k.id = j.id) (p : Progress) :
    (update_job store j).1 = true ∧
    j ∈ (update_job store j).2 ∧
    (Job.update_progress j p).version = j.version + 1 ∧
    (∀ (st : String) (j2 : Job), Job.update_status j st = Except.ok j2 →
      j2.version = j.version + 1) := by
  rcases update_job_list_found j store k hk hid with ⟨s2, hs2, hj⟩
  refine ⟨?_, ?_, rfl, ?_⟩
  · simp [update_job, hs2]
  · simp [update_job, hs2, hj]
  · intro st j2 h
    unfold Job.update_status at h
    split at h
    · cases h
      rfl
    · cases h

/-- Witness for `version_monotone_last_write_wins` on a one-record store. -/
theorem version_monotone_last_write_wins_witness :
    (update_job [storedJobV 5] (storedJobV 3)).1 = true ∧
    storedJobV 3 ∈ (update_job [storedJobV 5] (storedJobV 3)).2 :=
  ⟨(version_monotone_last_write_wins [storedJobV 5] (storedJobV 3)
      (storedJobV 5) (List.mem_singleton.mpr rfl) rfl defaultJobProgress).1,
   (version_monotone_last_write_wins [storedJobV 5] (storedJobV 3)
      (storedJobV 5) (List.mem_singleton.mpr rfl) rfl defaultJobProgress).2.1⟩

/-- C4 counterexample: with a corrupt primary file and a *missing* backup,
the store raises `FileNotFoundError` instead of returning an empty
document (first conjunct); with a corrupt backup it does return the empty
document (second conjunct) — and the source emits only standard `logging`
calls on this path, constructing no ErrorEvent of any severity. In both
cases `load_jobs` still returns the empty job list (third conjunct). -/
theorem load_recovery_counterexample :
    load_and_validate_yaml FileRead.yamlError FileRead.missing =
      Except.error () ∧
    load_and_validate_yaml FileRead.yamlError FileRead.yamlError =
      Except.ok (YamlDoc.dictJobs []) ∧
    load_jobs FileRead.yamlError FileRead.missing (fun _ => "u") = [] :=
  ⟨rfl, rfl, rfl⟩

/-- C4 amended: any parse error or structural-shape mismatch on the primary
file triggers recovery from the backup; a backup that exists but is
unreadable or shape-invalid yields the empty document; a *missing* backup
raises `FileNotFoundError`, which `load_jobs` catches; in every corruption
case `load_jobs` returns an empty list rather than raising. (The source
logs these failures with the standard logger only; no ErrorEvent is
recorded.) -/
theorem load_jobs_corruption_recovery :
    (∀ backup, load_and_validate_yaml FileRead.yamlError backup =
      recover_from_backup backup) ∧
    (∀ backup, load_and_validate_yaml FileRead.otherError backup =
      recover_from_backup backup) ∧
    (∀ backup, load_and_validate_yaml FileRead.missing backup =
      recover_from_backup backup) ∧
    (∀ backup doc, docShapeInvalid doc = true →
      load_and_validate_yaml (FileRead.ok doc) backup =
        recover_from_backup backup) ∧
    recover_from_backup FileRead.yamlError =
      Except.ok (YamlDoc.dictJobs []) ∧
    recover_from_backup FileRead.otherError =
      Except.ok (YamlDoc.dictJobs []) ∧
    (∀ doc, docShapeInvalid doc = true →
      recover_from_backup (FileRead.ok doc) =
        Except.ok (YamlDoc.dictJobs [])) ∧
    recover_from_backup FileRead.missing = Except.error () ∧
    (∀ freshIds, load_jobs FileRead.yamlError FileRead.yamlError freshIds = [] ∧
      load_jobs FileRead.yamlError FileRead.otherError freshIds = [] ∧
      load_jobs FileRead.yamlError FileRead.missing freshIds = []) := by
  refine ⟨fun backup => rfl, fun backup => rfl, fun backup => rfl, ?_, rfl,
    rfl, ?_, rfl, fun freshIds => ⟨rfl, rfl, rfl⟩⟩
  · intro backup doc hdoc
    unfold load_and_validate_yaml
    dsimp only
    rw [if_pos hdoc]
  · intro doc hdoc
    unfold recover_from_backup
    dsimp only
    rw [if_pos hdoc]

/-- Witness for `load_jobs_corruption_recovery` at a concrete shape-invalid
document. -/
theorem load_jobs_corruption_recovery_witness :
    load_and_validate_yaml (FileRead.ok YamlDoc.nonDict) FileRead.missing =
      recover_from_backup FileRead.missing :=
  load_jobs_corruption_recovery.2.2.2.1 FileRead.missing YamlDoc.nonDict rfl

/-- A per-file-deletion rsync engine state, for the retry theorems. -/
def enginePF : EngineState :=
  { engineVTD with
    deletion_mode := "per_file"
    progress := initProgress "fast" true "per_file" }

/-- A transient-network exit: rsync code 30 (I/O timeout). -/
def exitEnvNet : ExitEnv := { exitEnvVerifyFail with returncode := 30 }

/-- A transient-network rclone exit: nonzero code with a network pattern in
the stderr tail. -/
def exitEnvNetRclone : ExitEnv :=
  { exitEnvVerifyFail with returncode := 1, tailHasNetworkPattern := true }

/-- C6 (code defect), evaluated at the failing configuration: on a
transient network exit the n-th retry (retry_count = n, n = 0 first) waits
`min(2^n, 60)` seconds, clears the captured-output buffer before the new
child, increments the counter, and fails once `retry_count` reaches
`max_retries` — but the relaunched command is *not* always the same
command: in per-file deletion mode `RsyncEngine.start()` passes
`--remove-source-files` while `_restart_process()` (whose own comment says
"same as start()") omits it. -/
theorem retry_backoff_and_restart_divergence :
    rsyncStartCmd false true "per_file" "fast" none "/src" "/dst" ≠
      rsyncRestartCmd false "fast" none "/src" "/dst" ∧
    "--remove-source-files" ∈
      rsyncStartCmd false true "per_file" "fast" none "/src" "/dst" ∧
    "--remove-source-files" ∉ rsyncRestartCmd false "fast" none "/src" "/dst" ∧
    (rsyncHandleExit enginePF ["rsync: connection reset"] exitEnvNet).step =
      MonitorStep.retryContinue 1 ∧
    (rsyncHandleExit enginePF ["rsync: connection reset"] exitEnvNet).buffer =
      [] ∧
    (rsyncHandleExit enginePF ["rsync: connection reset"] exitEnvNet
      ).state.retry_count = 1 ∧
    (rsyncHandleExit enginePF ["rsync: connection reset"] exitEnvNet
      ).state.progress.status = "running (retrying...)" ∧
    (rsyncHandleExit { enginePF with retry_count := 5 } [] exitEnvNet).step =
      MonitorStep.retryContinue 32 ∧
    (rsyncHandleExit { enginePF with retry_count := 6 } [] exitEnvNet).step =
      MonitorStep.retryContinue 60 ∧
    (rsyncHandleExit { enginePF with retry_count := 10 } [] exitEnvNet).step =
      MonitorStep.exitLoop ∧
    (rsyncHandleExit { enginePF with retry_count := 10 } [] exitEnvNet
      ).state.progress.status = "failed" ∧
    (rsyncHandleExit { enginePF with retry_count := 10 } [] exitEnvNet
      ).state.running = false ∧
    (rcloneHandleExit engineVTD ["dial tcp: connection refused"]
      exitEnvNetRclone).step = MonitorStep.retryContinue 1 ∧
    (rcloneHandleExit engineVTD ["dial tcp: connection refused"]
      exitEnvNetRclone).buffer = [] ∧
    (∀ (sv : Bool) (dm vm : String) (bl : Option Nat) (src dst : String),
      rsyncRestartCmd sv vm bl src dst =
        rsyncStartCmd sv false dm vm bl src dst) := by
  refine ⟨by decide, by decide, by decide, by decide, by decide, by decide,
    by decide, by decide, by decide, by decide, by decide, by decide,
    by decide, by decide, ?_⟩
  intro sv dm vm bl src dst
  unfold rsyncStartCmd rsyncRestartCmd
  simp

/-- The engine progress with a prior percent of 7, for the parser
counterexample. -/
def progressPct7 : Progress :=
  { initProgress "fast" false "verify_then_delete" with percent := 7 }

/-- The extraction from the chunk
`"  5,678,901,234  67%   10.5MB/s    0:05:42"` (the repository's own test
input without a to-chk token): the byte regex matches — it requires the
`67%` right after the count — but captures only the count; speed and ETA
are extracted; there is no to-chk group. -/
def lineNoChk : RsyncParsedLine :=
  { checkTok := none
    bytesTok := some 5678901234
    speedTok := some 11010048
    etaTok := some (0, 5, 42) }

/-- C7 counterexample: on a chunk with a bare `67%` after the byte count
but no to-chk token, the parser does not extract the percent — `percent`
stays at its prior value 7 instead of becoming 67 (the bytes, speed and
ETA are updated). -/
theorem parse_progress_ignores_bare_percent :
    (rsync_parse_progress lineNoChk progressPct7).percent = 7 ∧
    (rsync_parse_progress lineNoChk progressPct7).bytes_transferred =
      5678901234 ∧
    (rsync_parse_progress lineNoChk progressPct7).eta_seconds = 342 ∧
    (rsync_parse_progress lineNoChk progressPct7).percent ≠ 67 := by
  decide

/-- The reconstructed total `int(bytes / (percent / 100.0))`. -/
def reconstructedTotal (b pct : Nat) : Nat := b * 100 / pct

/-- The commit guard `current == 0 or abs(calc - current) > current * 0.1`. -/
def commitGuard (cur calcTotal : Nat) : Prop :=
  cur = 0 ∨ 10 * Int.natAbs ((calcTotal : Int) - (cur : Int)) > cur

instance (cur calcTotal : Nat) : Decidable (commitGuard cur calcTotal) := by
  unfold commitGuard
  exact inferInstance

/-- C7 amended: percent is derived only from the to-check token — with
`to-chk=(r,t)`, `t > 0` (and `r ≤ t`, the only shape rsync emits) the
update is `floor((t − r) · 100 / t)`; when the token is absent the percent
is left unchanged (the bare `NN%` after a byte count only anchors the
byte-count regex and its value is not extracted). When both a byte count
`b` and a to-chk percent `p > 0` are parsed, the total is reconstructed as
`floor(b · 100 / p)` and committed only if no total exists yet or it
differs from the current one by more than 10 %. A zero total or zero
percent skips the respective update — no division is reached. -/
theorem parse_progress_rules :
    (∀ (line : RsyncParsedLine) (p : Progress) (r t : Nat),
      line.checkTok = some (r, t) → 0 < t → r ≤ t →
      (rsync_parse_progress line p).percent = (t - r) * 100 / t) ∧
    (∀ (line : RsyncParsedLine) (p : Progress),
      line.checkTok = none →
      (rsync_parse_progress line p).percent = p.percent) ∧
    (∀ (line : RsyncParsedLine) (p : Progress) (r t b : Nat),
      line.checkTok = some (r, t) → 0 < t → line.bytesTok = some b →
      0 < (t - r) * 100 / t →
      (rsync_parse_progress line p).total_bytes =
        (if commitGuard p.total_bytes
            (reconstructedTotal b ((t - r) * 100 / t))
         then reconstructedTotal b ((t - r) * 100 / t)
         else p.total_bytes)) ∧
    (∀ (line : RsyncParsedLine) (p : Progress) (r : Nat),
      line.checkTok = some (r, 0) →
      (rsync_parse_progress line p).percent = p.percent ∧
      (rsync_parse_progress line p).total_bytes = p.total_bytes) ∧
    (∀ (line : RsyncParsedLine) (p : Progress) (r t : Nat),
      line.checkTok = some (r, t) → 0 < t → (t - r) * 100 / t = 0 →
      (rsync_parse_progress line p).total_bytes = p.total_bytes) := by
  refine ⟨?_, ?_, ?_, ?_, ?_⟩
  · intro line p r t hchk ht _
    simp [rsync_parse_progress, hchk, ht]
  · intro line p hchk
    simp [rsync_parse_progress, hchk]
  · intro line p r t b hchk ht hb hpct
    by_cases hg : commitGuard p.total_bytes
        (reconstructedTotal b ((t - r) * 100 / t))
    all_goals
      simp only [rsync_parse_progress, hchk, hb, commitGuard,
        reconstructedTotal, gt_iff_lt] at hg ⊢
    all_goals
      rw [if_pos ht]
      dsimp only
      rw [if_pos hpct]
    · rw [if_pos hg]
      rw [if_pos hg]
      rfl
    · rw [if_neg hg]
      rw [if_neg hg]
      rfl
  · intro line p r hchk
    simp [rsync_parse_progress, hchk]
  · intro line p r t hchk ht hpct
    rcases hb : line.bytesTok with - | b <;>
      simp [rsync_parse_progress, hchk, ht, hpct, hb]

/-- Witness for `parse_progress_rules`: the repository test line
`"  1,234,567,890  45%   2.34MB/s    0:01:23 (xfr#9, to-chk=123/456)"`
yields 73 %. -/
theorem parse_progress_rules_witness :
    (rsync_parse_progress
      { checkTok := some (123, 456), bytesTok := some 1234567890,
        speedTok := some 2453667, etaTok := some (0, 1, 23) }
      (initProgress "fast" false "verify_then_delete")).percent =
      (456 - 123) * 100 / 456 :=
  parse_progress_rules.1
    { checkTok := some (123, 456), bytesTok := some 1234567890,
      speedTok := some 2453667, etaTok := some (0, 1, 23) }
    (initProgress "fast" false "verify_then_delete") 123 456 rfl
    (by decide) (by decide)

/-- A one-object heap: the engine owns the top-level dict at address 0,
whose nested deletion/verification dicts sit at addresses 0. -/
def heap0 : PyHeap :=
  { tops := [⟨0, 0, "running", 0, 0⟩]
    dels := [⟨"none", 0, 0⟩]
    vers := [⟨none, 0, 0⟩] }

/-- The heap after `get_progress()` allocated the shallow copy. -/
def heap1 : PyHeap := (get_progress_heap heap0 0).1

/-- The address of the returned snapshot. -/
def snapAddr : Nat := (get_progress_heap heap0 0).2

/-- C8 counterexample: after `get_progress()` has returned the snapshot at
`snapAddr`, the engine's nested write
`self.progress['deletion']['files_deleted'] = 3` *is* observable through
the previously returned value (it reads 0 before and 3 after), because
`dict.copy()` is shallow and the nested deletion dict is shared. -/
theorem get_progress_shallow_copy_shares_nested :
    viewFilesDeleted heap1 snapAddr = 0 ∧
    viewFilesDeleted (writeFilesDeleted heap1 0 3) snapAddr = 3 := by
  decide

/-- C8 amended: `get_progress()` returns a *shallow* copy under the mutex:
the snapshot's top-level scalar entries are value copies — a later engine
write to a top-level entry (e.g. `status`) is not observable through the
snapshot — but the nested verification/deletion dicts are shared by
reference, so a later engine write through the nested deletion dict is
observable through the snapshot. -/
lemma viewStatus_writeTopStatus_ne (h : PyHeap) (a b : Nat) (v : String)
    (hab : a ≠ b) :
    viewStatus (writeTopStatus h a v) b = viewStatus h b := by
  unfold viewStatus writeTopStatus PyHeap.top
  dsimp only
  simp [List.getD, List.getElem?_set_ne hab]

lemma viewFilesDeleted_write (h : PyHeap) (a b : Nat) (n : Nat)
    (hab : (h.top b).deletionRef = (h.top a).deletionRef)
    (hd : (h.top a).deletionRef < h.dels.length) :
    viewFilesDeleted (writeFilesDeleted h a n) b = n := by
  have htop : (writeFilesDeleted h a n).top b = h.top b := rfl
  have hdels : (writeFilesDeleted h a n).dels =
      h.dels.set (h.top a).deletionRef
        { h.dels.getD (h.top a).deletionRef ⟨"", 0, 0⟩ with
          files_deleted := n } := rfl
  unfold viewFilesDeleted
  rw [htop, hdels, hab]
  simp [List.getD, List.getElem?_set_eq_of_lt _ hd]

theorem get_progress_shallow_copy_semantics (h : PyHeap) (a : Nat)
    (ha : a < h.tops.length) (hd : (h.top a).deletionRef < h.dels.length)
    (n : Nat) (v : String) :
    viewStatus (get_progress_heap h a).1 (get_progress_heap h a).2 =
      (h.top a).status ∧
    viewFilesDeleted (get_progress_heap h a).1 (get_progress_heap h a).2 =
      viewFilesDeleted h a ∧
    viewStatus (writeTopStatus (get_progress_heap h a).1 a v)
      (get_progress_heap h a).2 = (h.top a).status ∧
    viewFilesDeleted (writeFilesDeleted (get_progress_heap h a).1 a n)
      (get_progress_heap h a).2 = n := by
  have hne : a ≠ h.tops.length := Nat.ne_of_lt ha
  have htop2 : (get_progress_heap h a).1.top (get_progress_heap h a).2 =
      h.top a := by
    simp [get_progress_heap, PyHeap.top, List.getD]
  have htopa : (get_progress_heap h a).1.top a = h.top a := by
    simp [get_progress_heap, PyHeap.top, List.getD, List.getElem?_append, ha]
  have hsnap : (get_progress_heap h a).2 = h.tops.length := rfl
  refine ⟨?_, ?_, ?_, ?_⟩
  · rw [viewStatus, htop2]
  · rw [viewFilesDeleted, htop2]
    rfl
  · rw [hsnap, viewStatus_writeTopStatus_ne _ _ _ _ hne, ← hsnap, viewStatus,
      htop2]
  · refine viewFilesDeleted_write _ _ _ _ ?_ ?_
    · rw [htop2, htopa]
    · rw [htopa]
      exact hd

/-- Witness for `get_progress_shallow_copy_semantics` on the concrete
one-object heap. -/
theorem get_progress_shallow_copy_semantics_witness :
    viewStatus (get_progress_heap heap0 0).1 (get_progress_heap heap0 0).2 =
      (heap0.top 0).status ∧
    viewFilesDeleted (get_progress_heap heap0 0).1
      (get_progress_heap heap0 0).2 = viewFilesDeleted heap0 0 ∧
    viewStatus (writeTopStatus (get_progress_heap heap0 0).1 0 "completed")
      (get_progress_heap heap0 0).2 = (heap0.top 0).status ∧
    viewFilesDeleted (writeFilesDeleted (get_progress_heap heap0 0).1 0 3)
      (get_progress_heap heap0 0).2 = 3 :=
  get_progress_shallow_copy_semantics heap0 0 (by decide) (by decide) 3
    "completed"

end PBackup
